import Mathlib

/-!
Verification development for libpathod/pathoc.py (the pathological HTTP
client).  The Python source is shallowly embedded: pure fragments become Lean
functions, stateful fragments become explicit state passing, the network is an
explicit input (a world value describing what the peer sends), and raised
Python exceptions become an error sum.  External collaborators (netlib,
OpenSSL, hashlib) are modelled at their interface boundary only; every such
definition says so in its doc comment.  Log output is not modelled: it never
feeds back into control flow.
-/

namespace PathocModel

/-! ## SSL session descriptor (class SSLInfo) -/

/-- Data the source reads off one certificate of the peer chain, through the
OpenSSL.crypto and certutils interfaces (subject and issuer components,
version, validity bounds, serial, signature algorithm, public key bits and
type code, subject alternative names). -/
structure CertData where
  subjectComponents : List (String × String)
  issuerComponents : List (String × String)
  version : Nat
  notBefore : String
  notAfter : String
  serial : Nat
  algorithm : String
  pubkeyBits : Nat
  pubkeyTypeCode : Nat
  altnames : List String
deriving DecidableEq

/-- Modelled from the spec: the OpenSSL.crypto.TYPE_RSA constant (its numeric
value is opaque to pathoc.py; 6 is used as a stand-in). -/
def TYPE_RSA : Nat := 6

/-- Modelled from the spec: the OpenSSL.crypto.TYPE_DSA constant (stand-in
value 116). -/
def TYPE_DSA : Nat := 116

/-- Translation of the types.get(pk.type(), "Uknown") lookup in
SSLInfo.__str__ (the misspelling "Uknown" is the source's). -/
def pubkeyTypeName (t : Nat) : String :=
  if t = TYPE_RSA then "RSA" else if t = TYPE_DSA then "DSA" else "Uknown"

/-- Immutable snapshot of negotiated TLS parameters (class SSLInfo): the peer
certificate chain, the cipher triple (name, bits, protocol version) and the
negotiated application-layer protocol. -/
structure SSLInfo where
  certchain : List CertData
  cipher : String × Nat × String
  alp : String
deriving DecidableEq

/-- The lines SSLInfo.__str__ appends for one certificate of the chain
(subject components, issuer components, version, validity, serial, algorithm,
public key, and the SANs line when altnames is non-empty). -/
def certParts (i : CertData) : List String :=
  ["\tSubject: "] ++
  i.subjectComponents.map (fun cn => "\t\t" ++ cn.1 ++ "=" ++ cn.2) ++
  ["\tIssuer: "] ++
  i.issuerComponents.map (fun cn => "\t\t" ++ cn.1 ++ "=" ++ cn.2) ++
  ["\tVersion: " ++ toString i.version,
   "\tValidity: " ++ i.notBefore ++ " - " ++ i.notAfter,
   "\tSerial: " ++ toString i.serial,
   "\tAlgorithm: " ++ i.algorithm,
   "\tPubkey: " ++ toString i.pubkeyBits ++ " bit " ++ pubkeyTypeName i.pubkeyTypeCode] ++
  (if i.altnames = [] then [] else ["\tSANs: " ++ String.intercalate " " i.altnames])

/-- The three header lines SSLInfo.__str__ builds before the per-certificate
loop. -/
def sslInfoHeader (s : SSLInfo) : List String :=
  ["Application Layer Protocol: " ++ s.alp,
   "Cipher: " ++ s.cipher.1 ++ ", " ++ toString s.cipher.2.1 ++ " bit, " ++ s.cipher.2.2,
   "SSL certificate chain:"]

/-- Translation of SSLInfo.__str__.  In the source the return statement sits
inside the for loop over self.certchain, so it fires at the end of the first
iteration: only the first certificate is ever formatted.  With an empty chain
the loop body never runs and the function falls off the end, returning Python
None (modelled as Option.none). -/
def sslInfoStr (s : SSLInfo) : Option String :=
  match s.certchain with
  | [] => Option.none
  | i :: _ => Option.some (String.intercalate "\n" (sslInfoHeader s ++ certParts i))

/-! ## Errors

Python exceptions raised by the embedded code.  The source raises
PathocError (the spec taxonomy's ProxyTunnelError / ConnectionError),
NotImplementedError (the spec taxonomy's CapabilityError, and netlib's
check_alpn failure), and lets netlib's HttpError / NetLibTimeout propagate;
indexing a None parse result would raise TypeError. -/
inductive PyErr where
  | pathocError (msg : String)
  | notImplementedError (msg : String)
  | typeError
  | attributeError
  | httpError (msg : String)
  | netlibTimeout
deriving DecidableEq

/-! ## Proxy tunnel (Pathoc.http_connect) and connect (Pathoc.connect) -/

/-- Whitespace for the Python str.strip a status line gets before parsing. -/
def isSpaceChar (c : Char) : Bool :=
  c = ' ' || c = '\t' || c = '\n' || c = '\r'

/-- Leading whitespace removed from a character list. -/
def dropSpaces : List Char → List Char
  | [] => []
  | c :: cs => if isSpaceChar c then dropSpaces cs else c :: cs

/-- Python str.strip on a character list: whitespace removed from both ends. -/
def stripChars (cs : List Char) : List Char :=
  dropSpaces (dropSpaces cs.reverse).reverse

/-- Python str.split(" ") on a character list: pieces between single-blank
separators, empty pieces kept. -/
def splitOnSpace : List Char → List (List Char)
  | [] => [[]]
  | c :: cs =>
    if c = ' ' then [] :: splitOnSpace cs
    else
      match splitOnSpace cs with
      | [] => [[c]]
      | w :: ws => (c :: w) :: ws

/-- The pieces past the second separator joined back with blanks, as a
two-split Python str.split(" ", 2) would have left them. -/
def joinSpace : List (List Char) → List Char
  | [] => []
  | [w] => w
  | w :: ws => w ++ ' ' :: joinSpace ws

/-- Python int(...) on a status-code field, for the decimal digit strings a
status line carries (anything else is a parse failure). -/
def natFromDigits (cs : List Char) : Option Nat :=
  if cs = [] then Option.none
  else
    cs.foldl
      (fun acc c =>
        match acc with
        | Option.none => Option.none
        | Option.some n =>
          if '0' ≤ c ∧ c ≤ '9' then Option.some (n * 10 + (c.toNat - '0'.toNat))
          else Option.none)
      (Option.some 0)

/-- Modelled from the spec: netlib's http.parse_response_line, the external
parser of an HTTP status line (protocol, integer status code, reason phrase;
a missing reason parses as the empty string; a line with no blank or a
non-numeric code is None).  The line is stripped and split on blanks with at
most two splits. -/
def parse_response_line (line : String) : Option (String × Nat × String) :=
  match splitOnSpace (stripChars line.toList) with
  | [] => Option.none
  | [_] => Option.none
  | proto :: code :: rest =>
    match natFromDigits code with
    | Option.none => Option.none
    | Option.some c => Option.some (String.mk proto, c, String.mk (joinSpace rest))

/-- Network activity connect performs, in order.  An empty event list means
no network I/O happened at all. -/
inductive ConnectEvent where
  | tcpConnect
  | wroteConnectRequest (host : String) (port : Nat)
  | readTunnelStatusLine
  | readTunnelHeaders
  | tlsHandshake (alpnProtos : List String)
  | checkAlpn
  | http2Preface
  | setTimeout (t : Nat)
deriving DecidableEq

/-- Translation of Pathoc.http_connect.  It writes the CONNECT request for
connect_to, flushes, and reads one reply line (an empty string models a
connection closed before a status line).  An empty line raises
PathocError "Proxy CONNECT failed"; a non-200 parsed status raises
PathocError with the status and reason interpolated; a 200 reads and
discards the tunnel headers.  Indexing a failed parse raises TypeError, as
parsed[1] would in Python. -/
def http_connect (connect_to : String × Nat) (line : String) :
    List ConnectEvent × Except PyErr Unit :=
  let ev := [ConnectEvent.wroteConnectRequest connect_to.1 connect_to.2,
             ConnectEvent.readTunnelStatusLine]
  if line = "" then (ev, Except.error (PyErr.pathocError "Proxy CONNECT failed"))
  else
    match parse_response_line line with
    | Option.none => (ev, Except.error PyErr.typeError)
    | Option.some (_, code, msg) =>
      if code = 200 then (ev ++ [ConnectEvent.readTunnelHeaders], Except.ok ())
      else
        (ev, Except.error (PyErr.pathocError
          ("Proxy CONNECT failed: " ++ toString code ++ " - " ++ msg)))

/-- Configuration fields of Pathoc.__init__ that Pathoc.connect branches on.
The sni, clientcert, ssl_version and ciphers options are passed through to
netlib's convert_to_ssl without being inspected and are not modelled. -/
structure ConnectConfig where
  ssl : Bool
  use_http2 : Bool
  http2_skip_connection_preface : Bool
  timeout : Option Nat
deriving DecidableEq

/-- Modelled from the spec: the HTTP/2 ALPN token,
netlib's http2.HTTP2Protocol.ALPN_PROTO_H2 (the glossary's HTTP/2 ALPN
identifier, "h2"). -/
def ALPN_PROTO_H2 : String := "h2"

/-- Translation of the alpn_protos list built in Pathoc.connect: the literal
list [b'http1.1'], with the HTTP/2 ALPN token appended when use_http2 is
set.  Note the source's literal is "http1.1", without a slash. -/
def alpn_protos (c : ConnectConfig) : List String :=
  let base := ["http1.1"]
  if c.use_http2 then base ++ [ALPN_PROTO_H2] else base

/-- What the network does during one connect call: the proxy's reply line to
a CONNECT request (when one is sent), the outcome of the TLS handshake
(either a netlib error message, or the peer chain / cipher / negotiated
protocol that convert_to_ssl makes available), and whether netlib's
check_alpn accepts the negotiated protocol. -/
structure ConnectWorld where
  tunnelLine : String
  tlsHandshakeResult : Except String (List CertData × (String × Nat × String) × String)
  alpnOk : Bool

/-- The TLS part of Pathoc.connect (the body of the "if self.ssl" branch):
convert_to_ssl with the alpn_protos list, a NetLibError re-raised as
PathocError, the SSLInfo snapshot on success, then for HTTP/2 the
check_alpn call (its failure modelled as the NotImplementedError netlib
raises) and, unless skipped, the client connection preface. -/
def sslPhase (c : ConnectConfig) (w : ConnectWorld) :
    List ConnectEvent × Except PyErr (Option SSLInfo) :=
  if c.ssl then
    match w.tlsHandshakeResult with
    | Except.error v =>
      ([ConnectEvent.tlsHandshake (alpn_protos c)],
       Except.error (PyErr.pathocError v))
    | Except.ok (chain, ciph, alp) =>
      let info : SSLInfo := ⟨chain, ciph, alp⟩
      if c.use_http2 then
        if w.alpnOk then
          ([ConnectEvent.tlsHandshake (alpn_protos c), ConnectEvent.checkAlpn] ++
            (if c.http2_skip_connection_preface then []
             else [ConnectEvent.http2Preface]),
           Except.ok (Option.some info))
        else
          ([ConnectEvent.tlsHandshake (alpn_protos c), ConnectEvent.checkAlpn],
           Except.error (PyErr.notImplementedError "HTTP2 ALPN negotiation failed"))
      else
        ([ConnectEvent.tlsHandshake (alpn_protos c)], Except.ok (Option.some info))
  else ([], Except.ok Option.none)

/-- The trailing "if self.timeout: self.settimeout(self.timeout)" of
Pathoc.connect.  A Python timeout of None or 0 is falsy, so no timeout is
applied in either case. -/
def timeoutPhase (c : ConnectConfig) : List ConnectEvent :=
  match c.timeout with
  | Option.none => []
  | Option.some t => if t = 0 then [] else [ConnectEvent.setTimeout t]

/-- Translation of Pathoc.connect.  The HTTP/2-without-SSL guard raises
NotImplementedError before tcp.TCPClient.connect runs, so its event list is
empty; otherwise the TCP connection is opened, the optional CONNECT tunnel
is driven by http_connect, and the TLS / HTTP/2 / timeout phases follow.
The result carries the events performed (in order) and either the raised
exception or the sslinfo field connect leaves behind. -/
def connect (c : ConnectConfig) (connect_to : Option (String × Nat))
    (w : ConnectWorld) : List ConnectEvent × Except PyErr (Option SSLInfo) :=
  if c.use_http2 && !c.ssl then
    ([], Except.error (PyErr.notImplementedError "HTTP2 without SSL is not supported."))
  else
    let tunnel : List ConnectEvent × Except PyErr Unit :=
      match connect_to with
      | Option.none => ([], Except.ok ())
      | Option.some ct => http_connect ct w.tunnelLine
    match tunnel.2 with
    | Except.error e => (ConnectEvent.tcpConnect :: tunnel.1, Except.error e)
    | Except.ok _ =>
      let s := sslPhase c w
      match s.2 with
      | Except.error e => (ConnectEvent.tcpConnect :: tunnel.1 ++ s.1, Except.error e)
      | Except.ok info =>
        (ConnectEvent.tcpConnect :: tunnel.1 ++ s.1 ++ timeoutPhase c,
         Except.ok info)

/-! ## WebsocketFrameReader.run

The reader thread's loop is embedded as structural recursion over a schedule
of loop iterations.  One Tick describes what the world presents to one pass
of the while loop: whether select reported the rfile readable, the clock
value after select, whether a terminate signal is pending on the terminate
queue, and the frame that websockets.Frame.from_file would decode if the
file is readable (the claims quantify over successfully decoded frames; a
decode that raises tears the thread down outside this loop).  The queue is
a FIFO list: a decoded frame is Option.some, the terminal sentinel that the
terminator context manager pushes is Option.none. -/

structure Tick (α : Type) where
  readable : Bool
  now : Nat
  stopSignal : Bool
  frame : α
deriving DecidableEq

/-- The "not r and self.timeout and delta > self.timeout" test: a timeout of
None (or the falsy 0) never expires. -/
def timeoutExpired (timeout : Option Nat) (delta : Nat) : Bool :=
  match timeout with
  | Option.none => false
  | Option.some t => t != 0 && delta > t

/-- The "if self.ws_read_limit is not None: self.ws_read_limit -= 1" step. -/
def decLimit : Option Nat → Option Nat
  | Option.none => Option.none
  | Option.some n => Option.some (n - 1)

/-- What one run of the reader loop leaves behind: the frames_queue contents
it pushed (in push order), whether the loop returned (reaching the
terminator's sentinel push) within the given schedule, and the final
ws_read_limit. -/
structure RunResult (α : Type) where
  queue : List (Option α)
  stopped : Bool
  limit : Option Nat
deriving DecidableEq

/-- Translation of WebsocketFrameReader.run, one constructor case per
schedule tick.  Per iteration, in source order: the ws_read_limit == 0 check,
the select poll, the idle-timeout check against the time of the last frame
(starttime), the terminate.get_nowait check, and then — when the rfile is
readable — one frame decoded, pushed, the limit decremented and starttime
reset.  Every return path runs inside "with self.terminator()", which pushes
the single Option.none sentinel.  A schedule that ends before any return
leaves stopped = false with no sentinel pushed (the thread is still in its
loop). -/
def runFrom (limit timeout : Option Nat) (starttime : Nat) :
    List (Tick α) → RunResult α
  | [] => ⟨[], false, limit⟩
  | t :: ts =>
    if limit = Option.some 0 then ⟨[Option.none], true, limit⟩
    else if !t.readable && timeoutExpired timeout (t.now - starttime) then
      ⟨[Option.none], true, limit⟩
    else if t.stopSignal then ⟨[Option.none], true, limit⟩
    else if t.readable then
      let r := runFrom (decLimit limit) timeout t.now ts
      ⟨Option.some t.frame :: r.queue, r.stopped, r.limit⟩
    else runFrom limit timeout starttime ts

/-- The frames the loop decodes off the wire for a given schedule, in decode
order (the projection of runFrom onto its decode steps). -/
def decodedFrames (limit timeout : Option Nat) (starttime : Nat) :
    List (Tick α) → List α
  | [] => []
  | t :: ts =>
    if limit = Option.some 0 then []
    else if !t.readable && timeoutExpired timeout (t.now - starttime) then []
    else if t.stopSignal then []
    else if t.readable then t.frame :: decodedFrames (decLimit limit) timeout t.now ts
    else decodedFrames limit timeout starttime ts

/-! ## Pathoc state, stop and wait -/

/-- The observable state of one WebsocketFrameReader object: its terminate
queue (stop signals posted and not yet consumed), its frames_queue contents,
the ws_read_limit and timeout it was constructed with, and whether start()
has been called on the thread. -/
structure ReaderHandle (α : Type) where
  terminate : List Unit
  frames_queue : List (Option α)
  ws_read_limit : Option Nat
  timeout : Option Nat
  started : Bool
deriving DecidableEq

/-- The fields of a Pathoc instance the embedded methods read or write. -/
structure PathocState (α : Type) where
  use_http2 : Bool
  ignoretimeout : Bool
  sslinfo : Option SSLInfo
  ws_framereader : Option (ReaderHandle α)
  ws_read_limit : Option Nat
  timeout : Option Nat
deriving DecidableEq

/-- Translation of Pathoc.stop: if a frame reader exists, put one item on
its terminate queue; otherwise do nothing.  It is a total function — no
exception is raised — and it never touches the frames_queue. -/
def stop (p : PathocState α) : PathocState α :=
  match p.ws_framereader with
  | Option.none => p
  | Option.some r =>
    { p with ws_framereader := Option.some { r with terminate := r.terminate ++ [()] } }

/-- The frames_queue of the attached reader ([] when no reader exists). -/
def framesQueueOf (p : PathocState α) : List (Option α) :=
  match p.ws_framereader with
  | Option.none => []
  | Option.some r => r.frames_queue

/-- What one pass of the while loop in Pathoc.wait does with one pop
attempt: yield a frame, see the sentinel and finish for good, return on an
empty result (finish false), retry on an empty result (finish true), or
block forever (timeout None on an empty queue). -/
inductive WaitOutcome (α : Type) where
  | yielded (f : α)
  | finished
  | ret
  | retry
  | hang
deriving DecidableEq

/-- Translation of one iteration of Pathoc.wait's loop over a queue state.
The source calls frames_queue.get with block = (timeout != 0): a non-empty
queue pops its head immediately (the sentinel Option.none triggers join and
a permanent return, a frame is yielded); an empty queue with timeout 0
raises Queue.Empty at once, with a positive timeout raises it after
blocking that long, and with timeout None blocks forever.  On Queue.Empty
the loop continues when finish is true and returns when finish is false.
The second component is how long the attempt blocked. -/
def waitStep (q : List (Option α)) (timeout : Option Nat) (finish : Bool) :
    WaitOutcome α × Nat :=
  match q with
  | f :: _ =>
    match f with
    | Option.none => (WaitOutcome.finished, 0)
    | Option.some x => (WaitOutcome.yielded x, 0)
  | [] =>
    match timeout with
    | Option.none => (WaitOutcome.hang, 0)
    | Option.some 0 => ((if finish then WaitOutcome.retry else WaitOutcome.ret), 0)
    | Option.some (t + 1) =>
      ((if finish then WaitOutcome.retry else WaitOutcome.ret), t + 1)

/-- The frames Pathoc.wait yields while consuming a queue state, and whether
it hit the sentinel: frames are yielded in queue order until the first
Option.none, which joins the reader and ends the iteration permanently
(everything behind the sentinel is never yielded). -/
def waitRun : List (Option α) → List α × Bool
  | [] => ([], false)
  | Option.none :: _ => ([], true)
  | Option.some f :: rest =>
    let r := waitRun rest
    (f :: r.1, r.2)

/-! ## Protocol dispatch (Pathoc.http, Pathoc.websocket_start, Pathoc.request) -/

/-- Immutable snapshot of one completed exchange (class Response). -/
structure Response where
  httpversion : String
  status_code : Nat
  msg : String
  headers : List (String × String)
  content : String
  sslinfo : Option SSLInfo
deriving DecidableEq

/-- The data netlib's response reader hands back for one exchange (status
line fields, headers in wire order, body). -/
structure RespData where
  httpversion : String
  status_code : Nat
  msg : String
  headers : List (String × String)
  content : String
deriving DecidableEq

/-- What the wire produces for one Pathoc.http call: a complete parsed
response, a netlib HttpError, or a read timeout. -/
inductive HttpWire where
  | success (d : RespData)
  | parseFailure (msg : String)
  | timedOut
deriving DecidableEq

/-- The outcome of Pathoc.http: a Response, None (a timeout with
ignoretimeout set), or a propagated exception. -/
inductive HttpResult where
  | resp (r : Response)
  | ignored
  | raisedHttpError (msg : String)
  | raisedTimeout
deriving DecidableEq

/-- Translation of Pathoc.http.  The request is served and flushed; on the
HTTP/2 branch the response is wrapped with protocol label "HTTP/2" and an
empty reason phrase, on the HTTP/1 branch the parsed fields are used as
read; either way the current sslinfo is attached.  An HttpError is logged
and re-raised; a NetLibTimeout returns None when ignoretimeout is set and is
re-raised otherwise. -/
def http (p : PathocState α) (w : HttpWire) : HttpResult :=
  match w with
  | HttpWire.success d =>
    if p.use_http2 then
      HttpResult.resp ⟨"HTTP/2", d.status_code, "", d.headers, d.content, p.sslinfo⟩
    else
      HttpResult.resp ⟨d.httpversion, d.status_code, d.msg, d.headers, d.content, p.sslinfo⟩
  | HttpWire.parseFailure m => HttpResult.raisedHttpError m
  | HttpWire.timedOut =>
    if p.ignoretimeout then HttpResult.ignored else HttpResult.raisedTimeout

/-- The WebsocketFrameReader object websocket_start constructs and starts:
fresh queues, the ws_read_limit and timeout copied from the Pathoc
instance, and the thread started. -/
def newFrameReader (p : PathocState α) : ReaderHandle α :=
  ⟨[], [], p.ws_read_limit, p.timeout, true⟩

/-- Translation of Pathoc.websocket_start: perform the HTTP request, and if
the response's status code is 101, construct a WebsocketFrameReader on the
same connection and start it before returning the response; any other
status code returns the response with the state untouched.  When http
returns None (an ignored timeout) the attribute access resp.status_code
raises AttributeError; HttpError and NetLibTimeout propagate. -/
def websocket_start (p : PathocState α) (w : HttpWire) :
    Except PyErr (PathocState α × Response) :=
  match http p w with
  | HttpResult.resp resp =>
    if resp.status_code = 101 then
      Except.ok ({ p with ws_framereader := Option.some (newFrameReader p) }, resp)
    else Except.ok (p, resp)
  | HttpResult.ignored => Except.error PyErr.attributeError
  | HttpResult.raisedHttpError m => Except.error (PyErr.httpError m)
  | HttpResult.raisedTimeout => Except.error PyErr.netlibTimeout

/-- The kinds of compiled message Pathoc.request dispatches on: an HTTP
request carrying its websocket-upgrade flag (r.ws), a websocket frame, or
an HTTP/2 request. -/
inductive Msg where
  | httpRequest (ws : Bool)
  | websocketFrame
  | http2Request
deriving DecidableEq

/-- Translation of Pathoc.request's dispatch: an HTTP request with the ws
flag goes through websocket_start, one without it through http; a
websocket frame is written with no response read (request returns None);
an HTTP/2 request goes through http. -/
def request (p : PathocState α) (m : Msg) (w : HttpWire) :
    Except PyErr (PathocState α × Option Response) :=
  match m with
  | Msg.httpRequest ws =>
    if ws then
      match websocket_start p w with
      | Except.ok (q, r) => Except.ok (q, Option.some r)
      | Except.error e => Except.error e
    else
      match http p w with
      | HttpResult.resp r => Except.ok (p, Option.some r)
      | HttpResult.ignored => Except.ok (p, Option.none)
      | HttpResult.raisedHttpError msg => Except.error (PyErr.httpError msg)
      | HttpResult.raisedTimeout => Except.error PyErr.netlibTimeout
  | Msg.websocketFrame => Except.ok (p, Option.none)
  | Msg.http2Request =>
    match http p w with
    | HttpResult.resp r => Except.ok (p, Option.some r)
    | HttpResult.ignored => Except.ok (p, Option.none)
    | HttpResult.raisedHttpError msg => Except.error (PyErr.httpError msg)
    | HttpResult.raisedTimeout => Except.error PyErr.netlibTimeout

/-! ## The replay driver's de-duplication (main's memo block)

The sha256 digest of a frozen specification's serialized form is opaque to
the control logic; digests are modelled as Nat values compared for
equality. -/

/-- The de-duplication state main carries across playlist entries: the set
of seen digests and the consecutive-retry counter. -/
structure MemoState where
  memo : List Nat
  trycount : Nat
deriving DecidableEq

/-- What the memo block decides for one playlist entry: execute it, skip it
(seen before, limit not exceeded), or abort the whole run (memo limit
exceeded). -/
inductive MemoAction where
  | execute
  | skip
  | abortRun
deriving DecidableEq

/-- Translation of the memo block in main: an unseen digest resets trycount
to 0, is added to the memo set and the request executes; a seen digest
increments trycount and, when trycount exceeds args.memolimit, aborts the
run, otherwise skips the request. -/
def memoStep (memolimit : Nat) (s : MemoState) (h : Nat) : MemoAction × MemoState :=
  if h ∈ s.memo then
    let tc := s.trycount + 1
    if tc > memolimit then (MemoAction.abortRun, ⟨s.memo, tc⟩)
    else (MemoAction.skip, ⟨s.memo, tc⟩)
  else (MemoAction.execute, ⟨h :: s.memo, 0⟩)

/-- The memo block folded over a playlist of digests: the per-entry actions
taken until (and including) an abort, the final state, and whether the run
aborted. -/
def memoRun (memolimit : Nat) (s : MemoState) : List Nat → List MemoAction × MemoState × Bool
  | [] => ([], s, false)
  | h :: hs =>
    let st := memoStep memolimit s h
    if st.1 = MemoAction.abortRun then ([MemoAction.abortRun], st.2, true)
    else
      let r := memoRun memolimit st.2 hs
      (st.1 :: r.1, r.2.1, r.2.2)

/-! ## Helper lemmas -/

theorem framesQueueOf_stop (p : PathocState α) : framesQueueOf (stop p) = framesQueueOf p := by
  cases h : p.ws_framereader <;> simp [stop, framesQueueOf, h]

theorem waitRun_append_sentinel (fs : List α) (q : List (Option α)) :
    waitRun (fs.map Option.some ++ Option.none :: q) = (fs, true) := by
  induction fs with
  | nil => rfl
  | cons f fs ih => simp [waitRun, ih]

theorem waitRun_map_some (fs : List α) : waitRun (fs.map Option.some) = (fs, false) := by
  induction fs with
  | nil => rfl
  | cons f fs ih => simp [waitRun, ih]

theorem runFrom_queue_shape (limit timeout : Option Nat) (st : Nat)
    (ts : List (Tick α)) :
    (runFrom limit timeout st ts).queue =
      (decodedFrames limit timeout st ts).map Option.some ++
        (if (runFrom limit timeout st ts).stopped then [Option.none] else []) := by
  induction ts generalizing limit st with
  | nil => simp [runFrom, decodedFrames]
  | cons t ts ih =>
    simp only [runFrom, decodedFrames]
    split_ifs with h1 h2 h3 h4 <;> simp_all [ih]

theorem filterMap_id_map_some (fs : List α) : (fs.map Option.some).filterMap id = fs := by
  induction fs with
  | nil => rfl
  | cons f fs ih => simp [ih]

theorem runFrom_queue_frames (limit timeout : Option Nat) (st : Nat)
    (ts : List (Tick α)) :
    (runFrom limit timeout st ts).queue.filterMap id = decodedFrames limit timeout st ts := by
  rw [runFrom_queue_shape]
  cases (runFrom limit timeout st ts).stopped <;>
    simp [filterMap_id_map_some]

theorem decodedFrames_length_le (timeout : Option Nat) (st N : Nat)
    (ts : List (Tick α)) :
    (decodedFrames (Option.some N) timeout st ts).length ≤ N := by
  induction ts generalizing N st with
  | nil => simp [decodedFrames]
  | cons t ts ih =>
    simp only [decodedFrames, decLimit]
    split_ifs with h1 h2 h3 h4
    · simp
    · simp
    · simp
    · have hN : N ≠ 0 := fun h => h1 (by simp [h])
      have := ih t.now (N - 1)
      simp only [List.length_cons]
      omega
    · exact ih st N

theorem runFrom_limit_eq (timeout : Option Nat) (st N : Nat) (ts : List (Tick α)) :
    (runFrom (Option.some N) timeout st ts).limit =
      Option.some (N - (decodedFrames (Option.some N) timeout st ts).length) := by
  induction ts generalizing N st with
  | nil => simp [runFrom, decodedFrames]
  | cons t ts ih =>
    simp only [runFrom, decodedFrames, decLimit]
    split_ifs with h1 h2 h3 h4
    · simp
    · simp
    · simp
    · have hN : N ≠ 0 := fun h => h1 (by simp [h])
      have h := ih t.now (N - 1)
      simp only [List.length_cons]
      rw [h]
      congr 1
      omega
    · exact ih st N

theorem memoRun_replicate_seen (memolimit : Nat) (memo : List Nat) (hd : Nat)
    (hmem : hd ∈ memo) (tc k : Nat) (htc : tc ≤ memolimit) :
    ((memoRun memolimit ⟨memo, tc⟩ (List.replicate k hd)).2.2 = true ↔
      memolimit < tc + k) := by
  induction k generalizing tc with
  | zero => simp [memoRun]; omega
  | succ k ih =>
    by_cases hlim : memolimit < tc + 1
    · simp only [List.replicate_succ, memoRun, memoStep, hmem, if_pos, if_true]
      simp [hlim]
      omega
    · have h1 : ¬ (tc + 1 > memolimit) := hlim
      simp only [List.replicate_succ, memoRun, memoStep, hmem, if_pos, if_true, h1, if_false]
      have := ih (tc + 1) (by omega)
      simp only [if_neg (by simp : ¬ (MemoAction.skip = MemoAction.abortRun))]
      rw [this]
      omega

/-! ## Claims -/

/-- C1: for every Pathoc configured with HTTP/2 enabled and TLS disabled,
connect raises the capability error (the source's NotImplementedError, the
spec taxonomy's CapabilityError) before any network I/O: its event list is
empty, so not even the TCP connection is opened. -/
theorem C1_connect_http2_without_ssl (c : ConnectConfig)
    (ct : Option (String × Nat)) (w : ConnectWorld)
    (h1 : c.use_http2 = true) (h2 : c.ssl = false) :
    connect c ct w =
      ([], Except.error (PyErr.notImplementedError "HTTP2 without SSL is not supported.")) := by
  simp [connect, h1, h2]

/-- Witness for C1 at a concrete configuration. -/
theorem C1_connect_http2_without_ssl_witness :
    connect ⟨false, true, false, Option.none⟩ Option.none
        ⟨"", Except.error "handshake failed", true⟩ =
      ([], Except.error (PyErr.notImplementedError "HTTP2 without SSL is not supported.")) :=
  C1_connect_http2_without_ssl _ _ _ rfl rfl

/-- C2 (amended): on a proxy CONNECT whose peer replies with a non-200
status the connect call fails with the source's ProxyTunnelError
(PathocError) reporting the status code and reason — but not the host:port;
when the peer closes before a status line the error message is the bare
"Proxy CONNECT failed", not one naming the host:port or saying
"connection closed"; on a 200 status line the tunnel headers are consumed
and connect proceeds exactly as a proxyless connect would. -/
theorem C2_proxy_tunnel (c : ConnectConfig) (ct : String × Nat) (w : ConnectWorld)
    (hcap : c.use_http2 = false ∨ c.ssl = true) :
    (w.tunnelLine = "" →
      connect c (Option.some ct) w =
        ([ConnectEvent.tcpConnect, ConnectEvent.wroteConnectRequest ct.1 ct.2,
          ConnectEvent.readTunnelStatusLine],
         Except.error (PyErr.pathocError "Proxy CONNECT failed"))) ∧
    (∀ proto code msg, w.tunnelLine ≠ "" →
      parse_response_line w.tunnelLine = Option.some (proto, code, msg) → code ≠ 200 →
      connect c (Option.some ct) w =
        ([ConnectEvent.tcpConnect, ConnectEvent.wroteConnectRequest ct.1 ct.2,
          ConnectEvent.readTunnelStatusLine],
         Except.error (PyErr.pathocError
           ("Proxy CONNECT failed: " ++ toString code ++ " - " ++ msg)))) ∧
    (∀ proto msg, w.tunnelLine ≠ "" →
      parse_response_line w.tunnelLine = Option.some (proto, 200, msg) →
      connect c (Option.some ct) w =
        (ConnectEvent.tcpConnect :: ConnectEvent.wroteConnectRequest ct.1 ct.2 ::
          ConnectEvent.readTunnelStatusLine :: ConnectEvent.readTunnelHeaders ::
          ((connect c Option.none w).1.drop 1),
         (connect c Option.none w).2)) := by
  have hg : (c.use_http2 && !c.ssl) = false := by
    rcases hcap with h | h <;> simp [h]
  refine ⟨?_, ?_, ?_⟩
  · intro hline
    simp [connect, hg, http_connect, hline]
  · intro proto code msg hline hparse hcode
    simp [connect, hg, http_connect, hline, hparse, hcode]
  · intro proto msg hline hparse
    cases hs : (sslPhase c w).2 <;>
      simp [connect, hg, http_connect, hline, hparse, hs]

/-- Witness for C2 at the spec's 407 scenario. -/
theorem C2_proxy_tunnel_witness :
    connect ⟨false, false, false, Option.none⟩ (Option.some ("proxyhost", 8080))
        ⟨"HTTP/1.1 407 Auth Required\r\n", Except.error "x", true⟩ =
      ([ConnectEvent.tcpConnect, ConnectEvent.wroteConnectRequest "proxyhost" 8080,
        ConnectEvent.readTunnelStatusLine],
       Except.error (PyErr.pathocError "Proxy CONNECT failed: 407 - Auth Required")) :=
  (C2_proxy_tunnel _ _ _ (Or.inl rfl)).2.1 "HTTP/1.1" 407 "Auth Required"
    (by decide) (by decide) (by decide)

/-- Counterexample to C2 as stated: at the spec's own 407 scenario the
raised error's message is "Proxy CONNECT failed: 407 - Auth Required" — it
does not name the host:port — and the closed-connection message
"Proxy CONNECT failed" does not contain "connection closed". -/
theorem C2_proxy_tunnel_counterexample :
    (http_connect ("proxyhost", 8080) "HTTP/1.1 407 Auth Required\r\n").2 =
      Except.error (PyErr.pathocError "Proxy CONNECT failed: 407 - Auth Required") ∧
    ¬ ("proxyhost".toList <:+: "Proxy CONNECT failed: 407 - Auth Required".toList) ∧
    (http_connect ("proxyhost", 8080) "").2 =
      Except.error (PyErr.pathocError "Proxy CONNECT failed") ∧
    ¬ ("connection closed".toList <:+: "Proxy CONNECT failed".toList) := by
  refine ⟨rfl, by decide, rfl, by decide⟩

/-- C3: the ALPN list Pathoc.connect offers in the TLS handshake never
contains the token "http/1.1" — the source's literal is "http1.1", missing
the slash, a slip against RFC 7301 and the spec — while the HTTP/2 ALPN
token is present exactly when HTTP/2 is enabled; at a concrete TLS-enabled
connect the handshake event carries exactly ["http1.1"]. -/
theorem C3_alpn_token_slip :
    (∀ c : ConnectConfig, "http/1.1" ∉ alpn_protos c ∧ "http1.1" ∈ alpn_protos c ∧
      (ALPN_PROTO_H2 ∈ alpn_protos c ↔ c.use_http2 = true)) ∧
    (connect ⟨true, false, false, Option.none⟩ Option.none
        ⟨"", Except.ok ([], ("ECDHE", 256, "TLSv1.2"), "http1.1"), true⟩).1 =
      [ConnectEvent.tcpConnect, ConnectEvent.tlsHandshake ["http1.1"]] := by
  refine ⟨fun c => ?_, by rfl⟩
  cases hc : c.use_http2 <;> simp [alpn_protos, ALPN_PROTO_H2, hc]

/-- C4: for every schedule of reader-loop iterations, the frames_queue the
WebsocketFrameReader leaves behind is exactly the decoded frames, in decode
order, followed — on every stop path, and only then — by a single terminal
sentinel; the sentinel count is 1 on stop paths and 0 before stopping, and
a consumer draining the queue (waitRun) observes exactly the decoded frames
in order, reaching end-of-stream exactly when the reader stopped. -/
theorem C4_frame_order_sentinel [DecidableEq α] (limit timeout : Option Nat)
    (st : Nat) (ts : List (Tick α)) :
    (runFrom limit timeout st ts).queue =
      (decodedFrames limit timeout st ts).map Option.some ++
        (if (runFrom limit timeout st ts).stopped then [Option.none] else []) ∧
    (runFrom limit timeout st ts).queue.count Option.none =
      (if (runFrom limit timeout st ts).stopped then 1 else 0) ∧
    waitRun (runFrom limit timeout st ts).queue =
      (decodedFrames limit timeout st ts, (runFrom limit timeout st ts).stopped) := by
  refine ⟨runFrom_queue_shape limit timeout st ts, ?_, ?_⟩
  · rw [runFrom_queue_shape]
    cases (runFrom limit timeout st ts).stopped <;>
      simp [List.count_append, List.count_eq_zero]
  · rw [runFrom_queue_shape]
    cases (runFrom limit timeout st ts).stopped
    · simpa using waitRun_map_some (decodedFrames limit timeout st ts)
    · simpa using waitRun_append_sentinel (decodedFrames limit timeout st ts) []

/-- C5: with a configured frame-count limit N the reader decodes and
enqueues at most N frames; the remaining limit is decremented exactly once
per decoded frame (the final limit is N minus the number of frames
decoded); and a limit of 0 stops the reader at the top of the first loop
iteration, before any frame is decoded, leaving only the sentinel. -/
theorem C5_ws_read_limit (timeout : Option Nat) (st N : Nat) (ts : List (Tick α)) :
    (decodedFrames (Option.some N) timeout st ts).length ≤ N ∧
    ((runFrom (Option.some N) timeout st ts).queue.filterMap id).length ≤ N ∧
    (runFrom (Option.some N) timeout st ts).limit =
      Option.some (N - (decodedFrames (Option.some N) timeout st ts).length) ∧
    (ts ≠ [] →
      runFrom (Option.some 0) timeout st ts = ⟨[Option.none], true, Option.some 0⟩) := by
  refine ⟨decodedFrames_length_le timeout st N ts, ?_,
    runFrom_limit_eq timeout st N ts, ?_⟩
  · rw [runFrom_queue_frames]
    exact decodedFrames_length_le timeout st N ts
  · cases ts with
    | nil => simp
    | cons t ts => intro _; simp [runFrom]

/-- Witness for C5 at a concrete schedule of three readable ticks against a
limit of 2. -/
theorem C5_ws_read_limit_witness :
    (decodedFrames (Option.some 2) Option.none 0
        [⟨true, 0, false, (7 : Nat)⟩, ⟨true, 1, false, 8⟩, ⟨true, 2, false, 9⟩]).length ≤ 2 ∧
    ((runFrom (Option.some 2) Option.none 0
        [⟨true, 0, false, (7 : Nat)⟩, ⟨true, 1, false, 8⟩, ⟨true, 2, false, 9⟩]).queue.filterMap
        id).length ≤ 2 ∧
    (runFrom (Option.some 2) Option.none 0
        [⟨true, 0, false, (7 : Nat)⟩, ⟨true, 1, false, 8⟩, ⟨true, 2, false, 9⟩]).limit =
      Option.some (2 - (decodedFrames (Option.some 2) Option.none 0
        [⟨true, 0, false, (7 : Nat)⟩, ⟨true, 1, false, 8⟩, ⟨true, 2, false, 9⟩]).length) ∧
    (([⟨true, 0, false, (7 : Nat)⟩, ⟨true, 1, false, 8⟩, ⟨true, 2, false, 9⟩] :
        List (Tick Nat)) ≠ [] →
      runFrom (Option.some 0) Option.none 0
          [⟨true, 0, false, (7 : Nat)⟩, ⟨true, 1, false, 8⟩, ⟨true, 2, false, 9⟩] =
        ⟨[Option.none], true, Option.some 0⟩) :=
  C5_ws_read_limit Option.none 0 2
    [⟨true, 0, false, (7 : Nat)⟩, ⟨true, 1, false, 8⟩, ⟨true, 2, false, 9⟩]

/-- C6: Pathoc.stop is a total function (it raises no error), and any
number of repeated stop calls only ever appends to the reader's terminate
queue: the delivery queue — and with it the number of terminal sentinels on
it — is left exactly as it was, so no duplicate sentinel can arise. -/
theorem C6_stop_idempotent [DecidableEq α] (p : PathocState α) (k : Nat) :
    framesQueueOf (stop^[k] p) = framesQueueOf p ∧
    (framesQueueOf (stop^[k] p)).count Option.none =
      (framesQueueOf p).count Option.none := by
  have h : framesQueueOf (stop^[k] p) = framesQueueOf p := by
    induction k with
    | zero => rfl
    | succ k ih => rw [Function.iterate_succ_apply', framesQueueOf_stop, ih]
  exact ⟨h, by rw [h]⟩

/-- C7 (amended): a pop attempt of Pathoc.wait on an empty queue with
timeout 0 produces an immediate empty result with no blocking, and with a
positive timeout blocks up to that duration; in both cases it is finish —
not the timeout — that decides what follows an empty result: finish true
retries (so wait(timeout=0, finish=true) spins rather than returning) and
finish false returns; a queued frame is yielded at once and the terminal
sentinel ends the iteration permanently, discarding nothing before it. -/
theorem C7_wait_semantics (timeout : Option Nat) (finish : Bool) (x : α)
    (rest q : List (Option α)) (fs : List α) (t : Nat) :
    waitStep ([] : List (Option α)) (Option.some 0) finish =
      ((if finish then WaitOutcome.retry else WaitOutcome.ret), 0) ∧
    waitStep ([] : List (Option α)) (Option.some (t + 1)) finish =
      ((if finish then WaitOutcome.retry else WaitOutcome.ret), t + 1) ∧
    waitStep ([] : List (Option α)) Option.none finish = (WaitOutcome.hang, 0) ∧
    waitStep (Option.some x :: rest) timeout finish = (WaitOutcome.yielded x, 0) ∧
    waitStep (Option.none :: rest) timeout finish = (WaitOutcome.finished, 0) ∧
    waitRun (fs.map Option.some ++ Option.none :: q) = (fs, true) :=
  ⟨rfl, rfl, rfl, rfl, rfl, waitRun_append_sentinel fs q⟩

/-- Counterexample to C7 as stated: with timeout 0, finish true and nothing
queued, the code retries (spins) instead of returning immediately. -/
theorem C7_wait_counterexample :
    (waitStep ([] : List (Option Nat)) (Option.some 0) true).1 = WaitOutcome.retry ∧
    WaitOutcome.retry ≠ (WaitOutcome.ret : WaitOutcome Nat) :=
  ⟨rfl, by decide⟩

/-- C8: with de-duplication enabled, an unseen digest is recorded and
resets the retry counter to 0 before execution; a seen digest increments
the counter and skips execution exactly while the counter stays within the
limit, aborting the run exactly when it exceeds it; and a playlist
repeating one digest L times aborts iff L reaches memolimit + 2 — one
recording occurrence plus memolimit tolerated repeats — not before. -/
theorem C8_memo_dedup (memolimit : Nat) (s : MemoState) (hd L : Nat) :
    (hd ∉ s.memo → memoStep memolimit s hd = (MemoAction.execute, ⟨hd :: s.memo, 0⟩)) ∧
    (hd ∈ s.memo →
      (memoStep memolimit s hd).2.trycount = s.trycount + 1 ∧
      ((memoStep memolimit s hd).1 = MemoAction.abortRun ↔ memolimit < s.trycount + 1) ∧
      ((memoStep memolimit s hd).1 = MemoAction.skip ↔ s.trycount + 1 ≤ memolimit)) ∧
    ((memoRun memolimit ⟨[], 0⟩ (List.replicate L hd)).2.2 = true ↔ memolimit + 2 ≤ L) := by
  refine ⟨fun hmem => by simp [memoStep, hmem], fun hmem => ?_, ?_⟩
  · by_cases hlim : memolimit < s.trycount + 1 <;>
      · simp [memoStep, hmem, hlim]
        try omega
  · cases L with
    | zero => simp [memoRun]
    | succ L =>
      have hstep : memoStep memolimit ⟨[], 0⟩ hd = (MemoAction.execute, ⟨[hd], 0⟩) := by
        simp [memoStep]
      have hcons : (memoRun memolimit ⟨[], 0⟩ (hd :: List.replicate L hd)).2.2 =
          (memoRun memolimit ⟨[hd], 0⟩ (List.replicate L hd)).2.2 := by
        simp [memoRun, hstep]
      rw [List.replicate_succ, hcons,
        memoRun_replicate_seen memolimit [hd] hd (by simp) 0 L (by omega)]
      omega

/-- Witness for C8 at memolimit 1 on the playlist [5,5,5,5]. -/
theorem C8_memo_dedup_witness :
    ((5 : Nat) ∉ (⟨[], 0⟩ : MemoState).memo →
      memoStep 1 ⟨[], 0⟩ 5 = (MemoAction.execute, ⟨5 :: (⟨[], 0⟩ : MemoState).memo, 0⟩)) ∧
    ((5 : Nat) ∈ (⟨[], 0⟩ : MemoState).memo →
      (memoStep 1 ⟨[], 0⟩ 5).2.trycount = (⟨[], 0⟩ : MemoState).trycount + 1 ∧
      ((memoStep 1 ⟨[], 0⟩ 5).1 = MemoAction.abortRun ↔
        1 < (⟨[], 0⟩ : MemoState).trycount + 1) ∧
      ((memoStep 1 ⟨[], 0⟩ 5).1 = MemoAction.skip ↔
        (⟨[], 0⟩ : MemoState).trycount + 1 ≤ 1)) ∧
    ((memoRun 1 ⟨[], 0⟩ (List.replicate 4 5)).2.2 = true ↔ 1 + 2 ≤ 4) :=
  C8_memo_dedup 1 ⟨[], 0⟩ 5 4

/-- C9: an upgrade-flagged HTTP request whose response has status code 101
attaches a freshly constructed, started WebsocketFrameReader (its
ws_read_limit and timeout copied from the client) to the connection before
the Response — built from the wire data with the current sslinfo attached —
is returned; any other status code starts no reader and returns the
Response as-is, through both websocket_start and the request dispatcher. -/
theorem C9_websocket_upgrade (p : PathocState α) (d : RespData)
    (hp : p.use_http2 = false) :
    (d.status_code = 101 →
      (websocket_start p (HttpWire.success d) =
        Except.ok
          ({ p with ws_framereader :=
              Option.some ⟨[], [], p.ws_read_limit, p.timeout, true⟩ },
           ⟨d.httpversion, d.status_code, d.msg, d.headers, d.content, p.sslinfo⟩) ∧
       request p (Msg.httpRequest true) (HttpWire.success d) =
        Except.ok
          ({ p with ws_framereader :=
              Option.some ⟨[], [], p.ws_read_limit, p.timeout, true⟩ },
           Option.some ⟨d.httpversion, d.status_code, d.msg, d.headers, d.content,
             p.sslinfo⟩))) ∧
    (d.status_code ≠ 101 →
      (websocket_start p (HttpWire.success d) =
        Except.ok (p, ⟨d.httpversion, d.status_code, d.msg, d.headers, d.content,
          p.sslinfo⟩) ∧
       request p (Msg.httpRequest true) (HttpWire.success d) =
        Except.ok (p, Option.some ⟨d.httpversion, d.status_code, d.msg, d.headers,
          d.content, p.sslinfo⟩))) := by
  constructor
  · intro h101
    constructor <;> simp [websocket_start, request, http, hp, h101, newFrameReader]
  · intro hne
    constructor <;> simp [websocket_start, request, http, hp, hne]

/-- Witness for C9 at the spec's 101 Switching Protocols scenario. -/
theorem C9_websocket_upgrade_witness :
    websocket_start
        (⟨false, false, Option.none, Option.none, Option.none, Option.none⟩ :
          PathocState Nat)
        (HttpWire.success ⟨"HTTP/1.1", 101, "Switching Protocols", [], ""⟩) =
      Except.ok
        (⟨false, false, Option.none,
            Option.some ⟨[], [], Option.none, Option.none, true⟩,
            Option.none, Option.none⟩,
         ⟨"HTTP/1.1", 101, "Switching Protocols", [], "", Option.none⟩) :=
  ((C9_websocket_upgrade
      (⟨false, false, Option.none, Option.none, Option.none, Option.none⟩ :
        PathocState Nat)
      ⟨"HTTP/1.1", 101, "Switching Protocols", [], ""⟩ rfl).1 rfl).1

/-- C10: SSLInfo string formatting returns from inside the per-certificate
loop: for a non-empty chain its result is the header plus the formatted
details of the first certificate only — it is invariant under replacing the
rest of the chain — and for an empty chain it returns Python None. -/
theorem C10_sslinfo_first_cert_only (cipher : String × Nat × String)
    (alp : String) (c : CertData) (rest rest' : List CertData) :
    sslInfoStr ⟨c :: rest, cipher, alp⟩ = sslInfoStr ⟨c :: rest', cipher, alp⟩ ∧
    sslInfoStr ⟨c :: rest, cipher, alp⟩ =
      Option.some (String.intercalate "\n"
        (sslInfoHeader ⟨c :: rest, cipher, alp⟩ ++ certParts c)) ∧
    sslInfoStr ⟨[], cipher, alp⟩ = Option.none :=
  ⟨rfl, rfl, rfl⟩

end PathocModel
